import Mathlib

/-!
Formal model of the craft-parts control-protocol client and related
components, shallowly embedded from the repository sources:

* `src/craft_parts/ctl.py` — the `craftctl` client (`CraftCtl.run` and the
  module-level `_client` helper);
* `src/craft_parts/plugins/ant_plugin.py` — the Ant plugin environment
  validator;
* `src/craft_parts/sources/errors.py` — the source-handler error taxonomy;
* the `ProjectInfo` / `PartInfo` / `StepInfo` context objects, whose
  implementation module is not part of the source tree and is therefore
  modelled from the specification and the repository's unit tests
  (`src/tests/unit/test_infos.py`).

Effectful Python code is modelled by explicit data flow: the process
environment is an `Option String` (the value of `PARTS_CTL_SOCKET`, when
set), the socket exchange is modelled by the request value the client
would send and the response string it receives, and raising `RuntimeError`
is modelled with `Except`.
-/

/-- Whitespace characters removed by Python `str.strip()` (ASCII range). -/
def isPySpace (c : Char) : Bool :=
  c = ' ' || c = '\t' || c = '\n' || c = '\r' || c = '\x0b' || c = '\x0c'

/-- Python `s.strip()`: remove leading and trailing whitespace. -/
def pyStrip (s : String) : String :=
  ⟨((s.data.dropWhile isPySpace).reverse.dropWhile isPySpace).reverse⟩

/-- Python's membership test `needle in hay` for strings: `needle` is a
contiguous substring of `hay` (the empty string is a substring of every
string). -/
def pyIn (needle hay : String) : Bool :=
  decide (needle.data <:+: hay.data)

/-- Escape one character the way CPython `repr` does inside a string literal
delimited by `quote` (covering printable ASCII plus tab/newline/return). -/
def pyCharEscape (quote : Char) (c : Char) : List Char :=
  if c = '\\' then ['\\', '\\']
  else if c = quote then ['\\', quote]
  else if c = '\t' then ['\\', 't']
  else if c = '\n' then ['\\', 'n']
  else if c = '\r' then ['\\', 'r']
  else [c]

/-- Python `repr` of a string (the `!r` format conversion), for strings of
printable ASCII: single-quoted, except that a string containing a single
quote but no double quote is double-quoted. -/
def pyStrRepr (s : String) : String :=
  if s.data.contains '\'' && !(s.data.contains '"') then
    ⟨'"' :: (s.data.flatMap (pyCharEscape '"') ++ ['"'])⟩
  else
    ⟨'\'' :: (s.data.flatMap (pyCharEscape '\'') ++ ['\''])⟩

/-- Python `s.split(" ", 1)` on the character list: the part before the
first space and, when a space occurs at all, the part after it. -/
def splitOnce : List Char → List Char × Option (List Char)
  | [] => ([], none)
  | c :: cs =>
    if c = ' ' then ([], some cs)
    else
      let r := splitOnce cs
      (c :: r.1, r.2)

/-- The status token of a server response: `feedback[0]` after
`response.split(" ", 1)` (src/craft_parts/ctl.py line 88). -/
def statusOf (response : String) : String :=
  ⟨(splitOnce response.data).1⟩

/-- The message part of a server response: `feedback[1].strip()` when the
split produced two parts, `""` otherwise (src/craft_parts/ctl.py line 89). -/
def messageOf (response : String) : String :=
  match (splitOnce response.data).2 with
  | some rest => pyStrip ⟨rest⟩
  | none => ""

/-- The distinct `RuntimeError` outcomes of `craftctl`, keyed by the control
path that raises them in src/craft_parts/ctl.py: a usage error for a missing
`PARTS_CTL_SOCKET` variable (lines 67-73), an invalid-command error from
`CraftCtl.run` (line 51), and a server-reported failure from an `ERR`
response (line 99).  Each carries the `RuntimeError` message text. -/
inductive CtlError where
  | usage (msg : String)
  | invalidCommand (msg : String)
  | server (msg : String)
deriving DecidableEq, Repr

/-- The request sent by `_client`: `data = {"function": cmd, "args": args}`
(src/craft_parts/ctl.py line 77), a structured message with exactly these
two fields. -/
structure CtlRequest where
  function : String
  args : List String
deriving DecidableEq, Repr

/-- The `RuntimeError` message raised when `PARTS_CTL_SOCKET` is absent
(src/craft_parts/ctl.py lines 70-73); `str(KeyError("PARTS_CTL_SOCKET"))`
is the quoted key name. -/
def usageMessage : String :=
  "'PARTS_CTL_SOCKET' environment variable must be defined.\nNote that this utility is designed for use only in part scriptlets."

/-- Response processing of `_client` (src/craft_parts/ctl.py lines 81-101):
split the received text at the first space; status `"OK"` returns the
stripped message, status `"ERR"` raises it as a `RuntimeError`, and any
other status falls through to `return retval` with `retval` still `None`. -/
def parseResponse (response : String) : Except CtlError (Option String) :=
  let fb := splitOnce response.data
  let status : String := ⟨fb.1⟩
  let message : String :=
    match fb.2 with
    | some rest => pyStrip ⟨rest⟩
    | none => ""
  if status = "OK" then Except.ok (some message)
  else if status = "ERR" then Except.error (CtlError.server message)
  else Except.ok none

/-- The `_client` helper (src/craft_parts/ctl.py lines 54-101).  `env` is
the value of `PARTS_CTL_SOCKET` when set; `response` is the text received
on the socket.  The first component is the request sent over the socket
(`none` when no connection was attempted), the second the returned value
or raised error. -/
def ctlClient (env : Option String) (cmd : String) (args : List String)
    (response : String) : Option CtlRequest × Except CtlError (Option String) :=
  match env with
  | none => (none, Except.error (CtlError.usage usageMessage))
  | some _ => (some ⟨cmd, args⟩, parseResponse response)

/-- `CraftCtl.run` (src/craft_parts/ctl.py lines 35-51): commands
`"default"` and `"set"` call `_client` and return `None`; a command
contained in the string `"get"` (Python's `cmd in "get"` substring test)
returns `_client`'s value; anything else raises
`RuntimeError(f"invalid command \x7bcmd!r\x7d")`. -/
def CraftCtl.run (cmd : String) (args : List String) (env : Option String)
    (response : String) : Option CtlRequest × Except CtlError (Option String) :=
  if cmd = "default" ∨ cmd = "set" then
    let r := ctlClient env cmd args response
    (r.1, r.2.map fun _ => none)
  else if pyIn cmd "get" then
    ctlClient env cmd args response
  else
    (none, Except.error (CtlError.invalidCommand ("invalid command " ++ pyStrRepr cmd)))

/-! ## General lemmas about the client model -/

/-- Unfolding of the response processing: the result is determined by the
status token and the stripped message. -/
theorem parseResponse_eq (response : String) :
    parseResponse response =
      if statusOf response = "OK" then Except.ok (some (messageOf response))
      else if statusOf response = "ERR" then
        Except.error (CtlError.server (messageOf response))
      else Except.ok none := rfl

/-- The contiguous substrings of the three-character string "get". -/
theorem substrings_of_get (l : List Char) :
    l <:+: ['g', 'e', 't'] ↔
      l = [] ∨ l = ['g'] ∨ l = ['e'] ∨ l = ['t'] ∨
      l = ['g', 'e'] ∨ l = ['e', 't'] ∨ l = ['g', 'e', 't'] := by
  simp [List.infix_cons_iff, List.prefix_cons_iff]
  aesop

/-- Python's test for command containment in "get" holds for exactly seven
strings. -/
theorem pyIn_get_iff (cmd : String) :
    pyIn cmd "get" = true ↔
      cmd ∈ (["", "g", "e", "t", "ge", "et", "get"] : List String) := by
  unfold pyIn
  rw [decide_eq_true_iff]
  rw [show ("get").data = ['g', 'e', 't'] from rfl]
  rw [substrings_of_get cmd.data]
  simp [String.ext_iff]

/-- The `_client` helper never produces the invalid-command error: that
error is raised only by `CraftCtl.run`'s final branch. -/
theorem ctlClient_snd_no_invalidCommand (env : Option String) (cmd : String)
    (args : List String) (response : String) (msg : String) :
    (ctlClient env cmd args response).2
      ≠ Except.error (CtlError.invalidCommand msg) := by
  cases env
  · simp [ctlClient]
  · simp only [ctlClient, parseResponse_eq]
    split
    · simp
    · split <;> simp

/-- Mapping the returned value to `None` (as `CraftCtl.run` does for the
`default` and `set` verbs) preserves errors exactly. -/
theorem map_none_eq_error {x : Except CtlError (Option String)} {e : CtlError} :
    x.map (fun _ => (none : Option String)) = Except.error e ↔ x = Except.error e := by
  cases x <;> simp [Except.map]

/-- A command accepted by one of the two dispatch tests of `CraftCtl.run`
never results in the invalid-command error. -/
theorem run_snd_no_invalidCommand (cmd : String) (args : List String)
    (env : Option String) (response : String)
    (h : cmd = "default" ∨ cmd = "set" ∨ pyIn cmd "get" = true) (msg : String) :
    (CraftCtl.run cmd args env response).2
      ≠ Except.error (CtlError.invalidCommand msg) := by
  intro hmsg
  by_cases h1 : cmd = "default" ∨ cmd = "set"
  · simp only [CraftCtl.run, if_pos h1] at hmsg
    rw [map_none_eq_error] at hmsg
    exact ctlClient_snd_no_invalidCommand env cmd args response msg hmsg
  · have h2 : pyIn cmd "get" = true := by tauto
    simp only [CraftCtl.run, if_neg h1, if_pos h2] at hmsg
    exact ctlClient_snd_no_invalidCommand env cmd args response msg hmsg

/-! ## Claims about the control-protocol client -/

/-- C3: with `PARTS_CTL_SOCKET` unset, the client fails with the fatal
usage `RuntimeError` naming the variable; no request is sent (the outcome
is the same whatever the server would have answered), and the failure is a
distinct outcome from the protocol-level errors. -/
theorem claim_c3 (cmd : String) (args : List String) (response other : String) :
    ctlClient none cmd args response = (none, Except.error (CtlError.usage usageMessage))
    ∧ pyIn "PARTS_CTL_SOCKET" usageMessage = true
    ∧ (∀ msg, CtlError.usage usageMessage ≠ CtlError.server msg)
    ∧ (∀ msg, CtlError.usage usageMessage ≠ CtlError.invalidCommand msg)
    ∧ ctlClient none cmd args response = ctlClient none cmd args other := by
  refine ⟨rfl, by decide, ?_, ?_, rfl⟩
  · intro msg h
    exact CtlError.noConfusion h
  · intro msg h
    exact CtlError.noConfusion h

/-- C10: `CraftCtl.run` raises the invalid-command error exactly for the
commands that are neither "default" nor "set" nor a contiguous substring
of "get"; each of the six proper substrings of "get" is sent to the
server as-is and its response payload handled exactly as for "get". -/
theorem claim_c10 (cmd sock : String) (args : List String) (response : String) :
    ((∃ msg, (CraftCtl.run cmd args (some sock) response).2
        = Except.error (CtlError.invalidCommand msg)) ↔
      ¬(cmd = "default" ∨ cmd = "set" ∨ cmd.data <:+: "get".data))
    ∧ (cmd ∈ (["", "g", "e", "t", "ge", "et"] : List String) →
        (CraftCtl.run cmd args (some sock) response).1
          = some { function := cmd, args := args } ∧
        (CraftCtl.run cmd args (some sock) response).2
          = (CraftCtl.run "get" args (some sock) response).2) := by
  constructor
  · constructor
    · rintro ⟨msg, hmsg⟩ hcond
      apply run_snd_no_invalidCommand cmd args (some sock) response ?_ msg hmsg
      rcases hcond with h | h | h
      · exact Or.inl h
      · exact Or.inr (Or.inl h)
      · exact Or.inr (Or.inr (decide_eq_true h))
    · intro hcond
      have h1 : ¬(cmd = "default" ∨ cmd = "set") := by
        intro h
        rcases h with h | h
        · exact hcond (Or.inl h)
        · exact hcond (Or.inr (Or.inl h))
      have h2 : ¬(pyIn cmd "get" = true) := by
        intro h
        exact hcond (Or.inr (Or.inr (of_decide_eq_true h)))
      refine ⟨"invalid command " ++ pyStrRepr cmd, ?_⟩
      simp only [CraftCtl.run, if_neg h1, if_neg h2]
  · intro hmem
    have h1 : ¬(cmd = "default" ∨ cmd = "set") := by
      fin_cases hmem <;> decide
    have h2 : pyIn cmd "get" = true := by
      fin_cases hmem <;> decide
    have h1g : ¬(("get" : String) = "default" ∨ ("get" : String) = "set") := by decide
    have h2g : pyIn "get" "get" = true := by decide
    constructor
    · simp only [CraftCtl.run, if_neg h1, if_pos h2, ctlClient]
    · simp only [CraftCtl.run, if_neg h1, if_pos h2, if_neg h1g, if_pos h2g]
      simp [ctlClient]

/-- C10 witness: the command "ge" is handled like "get" at a concrete
input. -/
theorem claim_c10_witness :
    (CraftCtl.run "ge" ["k"] (some "/tmp/ctl") "OK v").1
      = some { function := "ge", args := ["k"] }
    ∧ (CraftCtl.run "ge" ["k"] (some "/tmp/ctl") "OK v").2
      = (CraftCtl.run "get" ["k"] (some "/tmp/ctl") "OK v").2 :=
  (claim_c10 "ge" "/tmp/ctl" ["k"] "OK v").2 (by decide)

/-- C1 counterexample: on the response "hello world", whose status token is
neither "OK" nor "ERR", the client returns successfully with no value
instead of raising an error. -/
theorem claim_c1_counterexample :
    (CraftCtl.run "get" [] (some "/run/ctl") "hello world").2 = Except.ok none
    ∧ statusOf "hello world" ≠ "OK" ∧ statusOf "hello world" ≠ "ERR" :=
  ⟨by rfl, by decide, by decide⟩

/-- C1 (amended): a response whose status token is neither "OK" nor "ERR"
is not treated as an error; the client falls through and the caller
receives no value (`None`), for every verb. -/
theorem claim_c1 (sock : String) (args : List String) (response : String)
    (hok : statusOf response ≠ "OK") (herr : statusOf response ≠ "ERR") :
    (CraftCtl.run "get" args (some sock) response).2 = Except.ok none
    ∧ (CraftCtl.run "default" args (some sock) response).2 = Except.ok none
    ∧ (CraftCtl.run "set" args (some sock) response).2 = Except.ok none := by
  have hp : parseResponse response = Except.ok none := by
    rw [parseResponse_eq, if_neg hok, if_neg herr]
  have h1g : ¬(("get" : String) = "default" ∨ ("get" : String) = "set") := by decide
  have h2g : pyIn "get" "get" = true := by decide
  refine ⟨?_, ?_, ?_⟩
  · simp only [CraftCtl.run, if_neg h1g, if_pos h2g, ctlClient, hp]
  · simp [CraftCtl.run, ctlClient, hp, Except.map]
  · simp [CraftCtl.run, ctlClient, hp, Except.map]

/-- C1 witness: the amended statement evaluated on a concrete status-free
response. -/
theorem claim_c1_witness :
    statusOf "done" ≠ "OK" ∧ statusOf "done" ≠ "ERR" ∧
    (CraftCtl.run "get" [] (some "/tmp/ctl") "done").2 = Except.ok none :=
  ⟨by decide, by decide, (claim_c1 "/tmp/ctl" [] "done" (by decide) (by decide)).1⟩

/-- C2 counterexample: for the verb "get", a bare "OK" response yields the
empty string, not `None`; and an "ERR" message is stripped of surrounding
whitespace before being raised. -/
theorem claim_c2_counterexample :
    (CraftCtl.run "get" ["k"] (some "/s") "OK").2 = Except.ok (some "")
    ∧ Except.ok (some "") ≠ (Except.ok none : Except CtlError (Option String))
    ∧ parseResponse "ERR  boom " = Except.error (CtlError.server "boom")
    ∧ ("boom" : String) ≠ " boom " :=
  ⟨by rfl, by simp, by rfl, by decide⟩

/-- C2 (amended): an "ERR" response raises the stripped message for every
verb; an "OK" response makes "get" return the stripped message (the empty
string when no payload follows), while "default" and "set" always yield no
value on success. -/
theorem claim_c2 (sock : String) (args : List String) (response : String) :
    (statusOf response = "ERR" →
      (CraftCtl.run "default" args (some sock) response).2
          = Except.error (CtlError.server (messageOf response))
      ∧ (CraftCtl.run "set" args (some sock) response).2
          = Except.error (CtlError.server (messageOf response))
      ∧ (CraftCtl.run "get" args (some sock) response).2
          = Except.error (CtlError.server (messageOf response)))
    ∧ (statusOf response = "OK" →
      (CraftCtl.run "get" args (some sock) response).2
          = Except.ok (some (messageOf response))
      ∧ (CraftCtl.run "default" args (some sock) response).2 = Except.ok none
      ∧ (CraftCtl.run "set" args (some sock) response).2 = Except.ok none) := by
  have h1g : ¬(("get" : String) = "default" ∨ ("get" : String) = "set") := by decide
  have h2g : pyIn "get" "get" = true := by decide
  constructor
  · intro herr
    have hok : statusOf response ≠ "OK" := by
      rw [herr]
      decide
    have hp : parseResponse response
        = Except.error (CtlError.server (messageOf response)) := by
      rw [parseResponse_eq, if_neg hok, if_pos herr]
    refine ⟨?_, ?_, ?_⟩
    · simp [CraftCtl.run, ctlClient, hp, Except.map]
    · simp [CraftCtl.run, ctlClient, hp, Except.map]
    · simp only [CraftCtl.run, if_neg h1g, if_pos h2g, ctlClient, hp]
  · intro hok
    have hp : parseResponse response = Except.ok (some (messageOf response)) := by
      rw [parseResponse_eq, if_pos hok]
    refine ⟨?_, ?_, ?_⟩
    · simp only [CraftCtl.run, if_neg h1g, if_pos h2g, ctlClient, hp]
    · simp [CraftCtl.run, ctlClient, hp, Except.map]
    · simp [CraftCtl.run, ctlClient, hp, Except.map]

/-- C2 witness: the amended statement at concrete responses. -/
theorem claim_c2_witness :
    (CraftCtl.run "get" ["k"] (some "/tmp/ctl") "OK hi").2 = Except.ok (some "hi")
    ∧ (CraftCtl.run "set" ["k", "v"] (some "/tmp/ctl") "ERR boom").2
        = Except.error (CtlError.server "boom") := by
  constructor
  · have h := ((claim_c2 "/tmp/ctl" ["k"] "OK hi").2 (by decide)).1
    rw [show messageOf "OK hi" = "hi" from by decide] at h
    exact h
  · have h := ((claim_c2 "/tmp/ctl" ["k", "v"] "ERR boom").1 (by decide)).2.1
    rw [show messageOf "ERR boom" = "boom" from by decide] at h
    exact h

/-- C4: for each protocol verb, the message `_client` sends is the
structured request whose `function` field is the verb and whose `args`
field is the argument list, unchanged. -/
theorem claim_c4 (cmd sock : String) (args : List String) (response : String)
    (hcmd : cmd = "default" ∨ cmd = "set" ∨ cmd = "get") :
    (CraftCtl.run cmd args (some sock) response).1
      = some { function := cmd, args := args } := by
  rcases hcmd with rfl | rfl | rfl
  · simp [CraftCtl.run, ctlClient]
  · simp [CraftCtl.run, ctlClient]
  · have h1g : ¬(("get" : String) = "default" ∨ ("get" : String) = "set") := by decide
    have h2g : pyIn "get" "get" = true := by decide
    simp only [CraftCtl.run, if_neg h1g, if_pos h2g, ctlClient]

/-- C4 witness: the request for a concrete "get" call. -/
theorem claim_c4_witness :
    (CraftCtl.run "get" ["k1", "k2"] (some "/tmp/ctl") "OK v").1
      = some { function := "get", args := ["k1", "k2"] } :=
  claim_c4 "get" "/tmp/ctl" ["k1", "k2"] "OK v" (Or.inr (Or.inr rfl))

/-! ## The server's custom-argument store and the set/get round trip (C5) -/

/-- Association-list lookup by key, first match. -/
def lookupStore {V : Type} : List (String × V) → String → Option V
  | [], _ => none
  | e :: rest, key => if e.1 = key then some e.2 else lookupStore rest key

/-- Association-list update of the first entry carrying the given key;
a missing key leaves the store unchanged. -/
def updateStore {V : Type} : List (String × V) → String → V → List (String × V)
  | [], _, _ => []
  | e :: rest, key, value =>
    if e.1 = key then (e.1, value) :: rest else e :: updateStore rest key value

theorem lookupStore_updateStore_self {V : Type} (entries : List (String × V))
    (key : String) (v : V) (h : (lookupStore entries key).isSome) :
    lookupStore (updateStore entries key v) key = some v := by
  induction entries with
  | nil => simp [lookupStore] at h
  | cons e rest ih =>
    by_cases hk : e.1 = key
    · simp [updateStore, hk, lookupStore]
    · simp [updateStore, hk, lookupStore] at h ⊢
      exact ih h

theorem lookupStore_updateStore_other {V : Type} (entries : List (String × V))
    (key other : String) (v : V) (hne : other ≠ key) :
    lookupStore (updateStore entries key v) other = lookupStore entries other := by
  have hne' : key ≠ other := fun h => hne h.symm
  induction entries with
  | nil => simp [updateStore]
  | cons e rest ih =>
    by_cases hk : e.1 = key
    · simp [updateStore, hk, lookupStore, hne']
    · simp only [updateStore, if_neg hk]
      by_cases ho : e.1 = other
      · simp [lookupStore, ho]
      · simp [lookupStore, ho, ih]

theorem updateStore_keys {V : Type} (entries : List (String × V))
    (key : String) (v : V) :
    (updateStore entries key v).map Prod.fst = entries.map Prod.fst := by
  induction entries with
  | nil => simp [updateStore]
  | cons e rest ih =>
    by_cases hk : e.1 = key
    · simp [updateStore, hk]
    · simp [updateStore, hk, ih]

/-- Modelled from the spec: the control-protocol server's handling of the
`set` verb (§4.3) — the value is written into the custom-argument slot of
the running step processor.  The server code itself is not under src/. -/
def serverSet (store : List (String × String)) (key value : String) :
    List (String × String) :=
  updateStore store key value

/-- Modelled from the spec: the control-protocol server's handling of the
`get` verb (§4.3, §6) — the stored value is returned as the MESSAGE of an
`OK <MESSAGE>` response; an unknown key yields an `ERR` response.  The
server code itself is not under src/. -/
def serverGetResponse (store : List (String × String)) (key : String) : String :=
  match lookupStore store key with
  | some v => "OK " ++ v
  | none => "ERR " ++ pyStrRepr key ++ " not in project custom arguments"

theorem splitOnce_ok_append (v : String) :
    splitOnce ("OK " ++ v).data = (['O', 'K'], some v.data) := by
  rw [String.data_append]
  simp [splitOnce]

theorem statusOf_ok_append (v : String) : statusOf ("OK " ++ v) = "OK" := by
  unfold statusOf
  rw [splitOnce_ok_append]

theorem messageOf_ok_append (v : String) : messageOf ("OK " ++ v) = pyStrip v := by
  unfold messageOf
  rw [splitOnce_ok_append]

/-- The second component of a "get" call is exactly the processed response. -/
theorem run_get_snd (sock : String) (args : List String) (response : String) :
    (CraftCtl.run "get" args (some sock) response).2 = parseResponse response := by
  have h1g : ¬(("get" : String) = "default" ∨ ("get" : String) = "set") := by decide
  have h2g : pyIn "get" "get" = true := by decide
  simp only [CraftCtl.run, if_neg h1g, if_pos h2g, ctlClient]

/-- C5 counterexample: setting the declared key "key" to "v " (trailing
space) and reading it back delivers "v": the client strips surrounding
whitespace, so the delivered payload is not character-for-character
identical to the stored value. -/
theorem claim_c5_counterexample :
    (CraftCtl.run "get" ["key"] (some "/tmp/ctl")
        (serverGetResponse (serverSet [("key", "old")] "key" "v ") "key")).2
      = Except.ok (some "v")
    ∧ ("v" : String) ≠ "v " :=
  ⟨by rfl, by decide⟩

/-- C5 (amended): for every declared custom-argument key, a `set` of a
value followed by a `get` of the same key on the same store delivers the
stored value with leading and trailing whitespace stripped by the client;
the round trip is verbatim exactly when the value carries no surrounding
whitespace. -/
theorem claim_c5 (store : List (String × String)) (key value sock : String)
    (hdecl : (lookupStore store key).isSome) :
    (CraftCtl.run "get" [key] (some sock)
        (serverGetResponse (serverSet store key value) key)).2
      = Except.ok (some (pyStrip value))
    ∧ (pyStrip value = value →
        (CraftCtl.run "get" [key] (some sock)
            (serverGetResponse (serverSet store key value) key)).2
          = Except.ok (some value)) := by
  have hlook : lookupStore (serverSet store key value) key = some value :=
    lookupStore_updateStore_self store key value hdecl
  have hresp : serverGetResponse (serverSet store key value) key
      = "OK " ++ value := by
    unfold serverGetResponse
    rw [hlook]
  constructor
  · rw [hresp, run_get_snd, parseResponse_eq, statusOf_ok_append,
      messageOf_ok_append]
    simp
  · intro hv
    rw [hresp, run_get_snd, parseResponse_eq, statusOf_ok_append,
      messageOf_ok_append, hv]
    simp

/-- C5 witness: the amended round trip at a concrete store, key and
value. -/
theorem claim_c5_witness :
    (lookupStore [("key", "old")] "key").isSome = true
    ∧ (CraftCtl.run "get" ["key"] (some "/tmp/ctl")
        (serverGetResponse (serverSet [("key", "old")] "key" "val") "key")).2
      = Except.ok (some "val") :=
  ⟨by decide,
    (claim_c5 [("key", "old")] "key" "val" "/tmp/ctl" (by decide)).2 (by decide)⟩

/-! ## Context objects: ProjectInfo, PartInfo, StepInfo (C6, C7) -/

/-- Modelled from the spec: the Architecture record (§3), a fixed table
keyed by machine identifier giving the package-architecture tag and the
compiler target triplet.  The implementing module (craft_parts/infos.py)
is not under src/; the entries are the spec's example rows completed by
the repository's unit tests (src/tests/unit/test_infos.py lines 28-40). -/
def archTable : List (String × String × String) :=
  [("aarch64", "arm64", "aarch64-linux-gnu"),
   ("armv7l", "armhf", "arm-linux-gnueabihf"),
   ("i686", "i386", "i386-linux-gnu"),
   ("ppc", "powerpc", "powerpc-linux-gnu"),
   ("ppc64le", "ppc64el", "powerpc64le-linux-gnu"),
   ("riscv64", "riscv64", "riscv64-linux-gnu"),
   ("s390x", "s390x", "s390x-linux-gnu"),
   ("x86_64", "amd64", "x86_64-linux-gnu")]

/-- Lookup of a machine identifier in the Architecture record. -/
def archLookup (machine : String) : Option (String × String) :=
  lookupStore archTable machine

/-- The construction- and access-time failures of the context objects: an
unknown architecture identifier (errors.InvalidArchitecture, carrying the
requested name), Python's AttributeError on reading an undeclared custom
argument, and Python's ValueError on setting one. -/
inductive InfosError where
  | invalidArchitecture (arch_name : String)
  | attributeError (msg : String)
  | valueError (msg : String)
deriving DecidableEq, Repr

/-- Modelled from the spec: ProjectInfo (§3) — the architecture facts read
from the Architecture record for the requested target architecture, plus
the closed custom-argument store supplied at construction.  Custom
arguments hold arbitrary Python values, hence the type parameter `V`. -/
structure ProjectInfo (V : Type) where
  target_arch : String
  arch_triplet : String
  is_cross_compiling : Bool
  custom_args : List (String × V)

/-- Modelled from the spec: ProjectInfo construction — `target_arch` and
`arch_triplet` are read from the Architecture record for the requested
architecture (an identifier absent from the table is a construction-time
error), and `is_cross_compiling` holds iff the target's package tag
differs from the host's. -/
def mkProjectInfo (V : Type) (hostMachine targetMachine : String)
    (customArgs : List (String × V)) : Except InfosError (ProjectInfo V) :=
  match archLookup targetMachine with
  | none => Except.error (InfosError.invalidArchitecture targetMachine)
  | some t =>
    match archLookup hostMachine with
    | none => Except.error (InfosError.invalidArchitecture hostMachine)
    | some h =>
      Except.ok { target_arch := t.1, arch_triplet := t.2,
                  is_cross_compiling := t.1 != h.1, custom_args := customArgs }

/-- Modelled from the spec and tests: reading a custom argument by name on
ProjectInfo; an undeclared name fails with Python's AttributeError text
(test_infos.py line 89). -/
def ProjectInfo.getCustom {V : Type} (info : ProjectInfo V) (name : String) :
    Except InfosError V :=
  match lookupStore info.custom_args name with
  | some v => Except.ok v
  | none => Except.error (InfosError.attributeError
      ("'ProjectInfo' has no attribute '" ++ name ++ "'"))

/-- Modelled from the spec and tests: ProjectInfo.set_custom_argument — an
undeclared name fails with Python's ValueError text (test_infos.py
line 104). -/
def ProjectInfo.set_custom_argument {V : Type} (info : ProjectInfo V)
    (name : String) (value : V) : Except InfosError (ProjectInfo V) :=
  if (lookupStore info.custom_args name).isSome then
    Except.ok { info with custom_args := updateStore info.custom_args name value }
  else
    Except.error (InfosError.valueError
      (pyStrRepr name ++ " not in project custom arguments"))

/-- Modelled from the spec: PartInfo (§3) layers one part over ProjectInfo
and forwards the custom-argument accessors unchanged. -/
structure PartInfo (V : Type) where
  project_info : ProjectInfo V
  part_name : String

/-- The lifecycle steps, totally ordered Pull through Prime (§3). -/
inductive Step where
  | pull
  | overlay
  | build
  | stage
  | prime
deriving DecidableEq, Repr

/-- Modelled from the spec: StepInfo (§3) layers the current step over
PartInfo and forwards the custom-argument accessors unchanged. -/
structure StepInfo (V : Type) where
  part_info : PartInfo V
  step : Step

/-- Modelled from the spec and tests: PartInfo forwards custom-argument
reads to the project store, reporting its own class name on failure
(test_infos.py line 150). -/
def PartInfo.getCustom {V : Type} (p : PartInfo V) (name : String) :
    Except InfosError V :=
  match lookupStore p.project_info.custom_args name with
  | some v => Except.ok v
  | none => Except.error (InfosError.attributeError
      ("'PartInfo' has no attribute '" ++ name ++ "'"))

/-- Modelled from the spec and tests: PartInfo forwards
set_custom_argument to the project store unchanged. -/
def PartInfo.set_custom_argument {V : Type} (p : PartInfo V) (name : String)
    (value : V) : Except InfosError (PartInfo V) :=
  match p.project_info.set_custom_argument name value with
  | Except.ok info => Except.ok { p with project_info := info }
  | Except.error e => Except.error e

/-- Modelled from the spec and tests: StepInfo forwards custom-argument
reads to the project store, reporting its own class name on failure
(test_infos.py line 205). -/
def StepInfo.getCustom {V : Type} (s : StepInfo V) (name : String) :
    Except InfosError V :=
  match lookupStore s.part_info.project_info.custom_args name with
  | some v => Except.ok v
  | none => Except.error (InfosError.attributeError
      ("'StepInfo' has no attribute '" ++ name ++ "'"))

/-- Modelled from the spec and tests: StepInfo forwards
set_custom_argument to the project store unchanged. -/
def StepInfo.set_custom_argument {V : Type} (s : StepInfo V) (name : String)
    (value : V) : Except InfosError (StepInfo V) :=
  match s.part_info.set_custom_argument name value with
  | Except.ok p => Except.ok { s with part_info := p }
  | Except.error e => Except.error e

/-- A successful construction stores exactly the custom arguments given. -/
theorem mkProjectInfo_custom_args {V : Type} {host target : String}
    {entries : List (String × V)} {info : ProjectInfo V}
    (hmk : mkProjectInfo V host target entries = Except.ok info) :
    info.custom_args = entries := by
  unfold mkProjectInfo at hmk
  split at hmk
  · exact Except.noConfusion hmk
  · split at hmk
    · exact Except.noConfusion hmk
    · cases hmk
      rfl

/-- C6: for every pair of identifiers declared in the Architecture record,
construction succeeds with the table's package tag and compiler triplet
for the target, cross-compiling holds exactly when the two package tags
differ, and the three example rows of the test table (host aarch64) come
out as recorded there. -/
theorem claim_c6 (V : Type) (customArgs : List (String × V))
    (host htag htriplet target ttag ttriplet : String)
    (hh : (host, htag, htriplet) ∈ archTable)
    (ht : (target, ttag, ttriplet) ∈ archTable) :
    mkProjectInfo V host target customArgs
      = Except.ok { target_arch := ttag, arch_triplet := ttriplet,
                    is_cross_compiling := ttag != htag,
                    custom_args := customArgs }
    ∧ mkProjectInfo V "aarch64" "aarch64" customArgs
      = Except.ok { target_arch := "arm64", arch_triplet := "aarch64-linux-gnu",
                    is_cross_compiling := false, custom_args := customArgs }
    ∧ mkProjectInfo V "aarch64" "armv7l" customArgs
      = Except.ok { target_arch := "armhf", arch_triplet := "arm-linux-gnueabihf",
                    is_cross_compiling := true, custom_args := customArgs }
    ∧ mkProjectInfo V "aarch64" "x86_64" customArgs
      = Except.ok { target_arch := "amd64", arch_triplet := "x86_64-linux-gnu",
                    is_cross_compiling := true, custom_args := customArgs } := by
  refine ⟨?_, rfl, rfl, rfl⟩
  fin_cases hh <;> fin_cases ht <;> rfl

/-- C6 witness: the general statement at the concrete pair of the spec's
example (host aarch64, target armv7l). -/
theorem claim_c6_witness :
    ("aarch64", "arm64", "aarch64-linux-gnu") ∈ archTable
    ∧ ("armv7l", "armhf", "arm-linux-gnueabihf") ∈ archTable
    ∧ mkProjectInfo String "aarch64" "armv7l" [("custom1", "foobar")]
      = Except.ok { target_arch := "armhf", arch_triplet := "arm-linux-gnueabihf",
                    is_cross_compiling := ("armhf" != "arm64" : Bool),
                    custom_args := [("custom1", "foobar")] } :=
  ⟨by decide, by decide,
    (claim_c6 String [("custom1", "foobar")] "aarch64" "arm64" "aarch64-linux-gnu"
      "armv7l" "armhf" "arm-linux-gnueabihf" (by decide) (by decide)).1⟩

/-- C7: the custom-argument name set is closed at construction: a declared
name reads back its construction value, an undeclared name fails to read
with the attribute-style error, an undeclared name fails to be set with
the value-style error, and setting a declared name succeeds, updates
subsequent reads of it, leaves other names unchanged and preserves the
name set; PartInfo and StepInfo layered on the ProjectInfo forward the
accessor pair unchanged (up to the class name in the error text). -/
theorem claim_c7 (V : Type) (host target part_name : String) (step : Step)
    (entries : List (String × V)) (info : ProjectInfo V)
    (hmk : mkProjectInfo V host target entries = Except.ok info)
    (name other missing : String) (v v' : V)
    (hdecl : lookupStore entries name = some v)
    (hmiss : lookupStore entries missing = none) :
    info.getCustom name = Except.ok v
    ∧ info.getCustom missing = Except.error (InfosError.attributeError
        ("'ProjectInfo' has no attribute '" ++ missing ++ "'"))
    ∧ info.set_custom_argument missing v' = Except.error (InfosError.valueError
        (pyStrRepr missing ++ " not in project custom arguments"))
    ∧ (∃ info', info.set_custom_argument name v' = Except.ok info'
        ∧ info'.getCustom name = Except.ok v'
        ∧ (other ≠ name → info'.getCustom other = info.getCustom other)
        ∧ info'.custom_args.map Prod.fst = info.custom_args.map Prod.fst)
    ∧ (PartInfo.mk info part_name).getCustom name = Except.ok v
    ∧ (StepInfo.mk (PartInfo.mk info part_name) step).getCustom name = Except.ok v
    ∧ (PartInfo.mk info part_name).getCustom missing
        = Except.error (InfosError.attributeError
            ("'PartInfo' has no attribute '" ++ missing ++ "'"))
    ∧ (StepInfo.mk (PartInfo.mk info part_name) step).getCustom missing
        = Except.error (InfosError.attributeError
            ("'StepInfo' has no attribute '" ++ missing ++ "'"))
    ∧ (∃ p', (PartInfo.mk info part_name).set_custom_argument name v'
          = Except.ok p' ∧ p'.getCustom name = Except.ok v')
    ∧ (∃ s', (StepInfo.mk (PartInfo.mk info part_name) step).set_custom_argument
          name v' = Except.ok s' ∧ s'.getCustom name = Except.ok v') := by
  have ha : info.custom_args = entries := mkProjectInfo_custom_args hmk
  have hsome : (lookupStore entries name).isSome := by
    rw [hdecl]
    rfl
  have hupd : lookupStore (updateStore entries name v') name = some v' :=
    lookupStore_updateStore_self entries name v' hsome
  refine ⟨?_, ?_, ?_, ?_, ?_, ?_, ?_, ?_, ?_, ?_⟩
  · simp [ProjectInfo.getCustom, ha, hdecl]
  · simp [ProjectInfo.getCustom, ha, hmiss]
  · simp [ProjectInfo.set_custom_argument, ha, hmiss]
  · refine ⟨{ info with custom_args := updateStore entries name v' }, ?_, ?_, ?_, ?_⟩
    · simp [ProjectInfo.set_custom_argument, ha, hdecl]
    · simp [ProjectInfo.getCustom, hupd]
    · intro hne
      simp [ProjectInfo.getCustom, ha,
        lookupStore_updateStore_other entries name other v' hne]
    · simp [ha, updateStore_keys]
  · simp [PartInfo.getCustom, ha, hdecl]
  · simp [StepInfo.getCustom, ha, hdecl]
  · simp [PartInfo.getCustom, ha, hmiss]
  · simp [StepInfo.getCustom, ha, hmiss]
  · refine ⟨PartInfo.mk { info with custom_args := updateStore entries name v' }
        part_name, ?_, ?_⟩
    · simp [PartInfo.set_custom_argument, ProjectInfo.set_custom_argument, ha, hdecl]
    · simp [PartInfo.getCustom, hupd]
  · refine ⟨StepInfo.mk (PartInfo.mk
        { info with custom_args := updateStore entries name v' } part_name)
        step, ?_, ?_⟩
    · simp [StepInfo.set_custom_argument, PartInfo.set_custom_argument,
        ProjectInfo.set_custom_argument, ha, hdecl]
    · simp [StepInfo.getCustom, hupd]

/-- C7 witness: the closure properties at a concrete ProjectInfo built
with custom1="foobar", read back after setting it to "bar". -/
theorem claim_c7_witness :
    lookupStore [("custom1", "foobar")] "custom1" = some "foobar"
    ∧ lookupStore ([("custom1", "foobar")] : List (String × String)) "customX" = none
    ∧ (ProjectInfo.mk "arm64" "aarch64-linux-gnu" ("arm64" != "arm64")
        [("custom1", "foobar")]).getCustom "custom1" = Except.ok "foobar" := by
  refine ⟨by decide, by decide, ?_⟩
  exact (claim_c7 String "aarch64" "aarch64" "p1" Step.pull
    [("custom1", "foobar")]
    (ProjectInfo.mk "arm64" "aarch64-linux-gnu" ("arm64" != "arm64")
      [("custom1", "foobar")])
    rfl "custom1" "custom2" "customX" "foobar" "bar"
    (by decide) (by decide)).1

/-! ## The Ant plugin environment validator (C8) -/

/-- The error raised by plugin environment validation
(errors.PluginEnvironmentValidationError), carrying the part name and a
reason (raised in src/craft_parts/plugins/ant_plugin.py lines 76-79). -/
structure PluginEnvironmentValidationError where
  part_name : String
  reason : String
deriving DecidableEq, Repr

/-- AntPluginEnvironmentValidator.validate_environment
(src/craft_parts/plugins/ant_plugin.py lines 56-79): `version` is the text
reported by the required tool (`ant -version` via validate_dependency);
validation raises when the version does not start with "Apache Ant" and
the dependency list is either absent or has no part named "ant-deps". -/
def validate_environment (part_name version : String)
    (part_dependencies : Option (List String)) :
    Except PluginEnvironmentValidationError Unit :=
  if !(version.startsWith "Apache Ant")
      && (part_dependencies.isNone
          || !((part_dependencies.getD []).contains "ant-deps") : Bool) then
    Except.error { part_name := part_name,
                   reason := "invalid ant version " ++ pyStrRepr version }
  else
    Except.ok ()

/-- C8: validation raises its error exactly when the reported version does
not start with "Apache Ant" and no dependency part is named "ant-deps";
with an "ant-deps" dependency present, any reported version is accepted. -/
theorem claim_c8 (part_name version : String) (deps : Option (List String)) :
    (validate_environment part_name version deps
        = Except.error { part_name := part_name,
                         reason := "invalid ant version " ++ pyStrRepr version }
      ↔ ¬(version.startsWith "Apache Ant" = true)
        ∧ ∀ l, deps = some l → "ant-deps" ∉ l)
    ∧ (∀ l, deps = some l → "ant-deps" ∈ l →
        validate_environment part_name version deps = Except.ok ()) := by
  cases deps with
  | none =>
    by_cases hb : version.startsWith "Apache Ant" = true
    · simp [validate_environment, hb]
    · simp [validate_environment, hb]
  | some l =>
    by_cases hb : version.startsWith "Apache Ant" = true
    · simp [validate_environment, hb]
    · by_cases hd : "ant-deps" ∈ l
      · simp [validate_environment, hb, hd, List.elem_iff]
      · simp [validate_environment, hb, hd, List.elem_iff]

/-! ## The source-handler error taxonomy (C9) -/

/-- The base data of craft-parts errors (craft_parts.errors.PartsError): a
brief summary, optional details, and an optional resolution hint. -/
structure PartsError where
  brief : String
  details : Option String := none
  resolution : Option String := none
deriving DecidableEq, Repr

/-- Python repr of a list of strings (the `!r` conversion on a command
sequence). -/
def pyListRepr (items : List String) : String :=
  "[" ++ String.intercalate ", " (items.map pyStrRepr) ++ "]"

/-- Modelled from the spec: humanize_list of
craft_parts.utils.formatting_utils (module not under src/) — each item is
shown in repr form and the items are joined with commas and a final
conjunction word. -/
def humanize_list (items : List String) (conjunction : String) : String :=
  joinHumanized (items.map pyStrRepr) conjunction
where
  joinHumanized : List String → String → String
    | [], _ => ""
    | [x], _ => x
    | [x, y], conj => x ++ " " ++ conj ++ " " ++ y
    | x :: rest, conj => x ++ ", " ++ joinHumanized rest conj

/-- InvalidSourceType (src/craft_parts/sources/errors.py lines 29-44). -/
def InvalidSourceType (source : String) (source_type : Option String) :
    PartsError :=
  { brief := "Failed to pull source: " ++
      match source_type with
      | some st => "unknown source-type " ++ pyStrRepr st ++ "."
      | none => "unable to determine source type of " ++ pyStrRepr source ++ "." }

/-- InvalidSourceOption (src/craft_parts/sources/errors.py lines 47-63). -/
def InvalidSourceOption (source_type option : String) : PartsError :=
  { brief := "Failed to pull source: " ++ pyStrRepr option ++
      " cannot be used with a " ++ source_type ++ " source.",
    resolution := some "Make sure sources are correctly specified." }

/-- InvalidSourceOptions (src/craft_parts/sources/errors.py lines 67-84). -/
def InvalidSourceOptions (source_type : String) (options : List String) :
    PartsError :=
  { brief := "Failed to pull source: " ++ humanize_list options "and" ++
      " cannot be used with a " ++ source_type ++ " source.",
    resolution := some "Make sure sources are correctly specified." }

/-- IncompatibleSourceOptions (src/craft_parts/sources/errors.py
lines 87-104). -/
def IncompatibleSourceOptions (source_type : String) (options : List String) :
    PartsError :=
  { brief := "Failed to pull source: cannot specify both " ++
      humanize_list options "and" ++ " for a " ++ source_type ++ " source.",
    resolution := some "Make sure sources are correctly specified." }

/-- ChecksumMismatch (src/craft_parts/sources/errors.py lines 107-119). -/
def ChecksumMismatch (expected obtained : String) : PartsError :=
  { brief := "Expected digest " ++ expected ++ ", obtained " ++ obtained ++ "." }

/-- SourceUpdateUnsupported (src/craft_parts/sources/errors.py
lines 122-132). -/
def SourceUpdateUnsupported (name : String) : PartsError :=
  { brief := "Failed to update source: " ++ pyStrRepr name ++
      " sources don't support updating." }

/-- NetworkRequestError (src/craft_parts/sources/errors.py lines 135-149). -/
def NetworkRequestError (message : String) (source : Option String) :
    PartsError :=
  { brief := "Network request error: " ++ message ++ ".",
    details := source.map (fun s => "Source: " ++ pyStrRepr s),
    resolution := some "Check network connection and source, and try again." }

/-- HttpRequestError (src/craft_parts/sources/errors.py lines 152-167). -/
def HttpRequestError (status_code : Int) (reason source : String) : PartsError :=
  { brief := "Cannot process request (" ++ reason ++ ": " ++
      toString status_code ++ "): " ++ source,
    resolution := some "Check your URL and permissions and try again." }

/-- SourceNotFound (src/craft_parts/sources/errors.py lines 170-181). -/
def SourceNotFound (source : String) : PartsError :=
  { brief := "Failed to pull source: " ++ pyStrRepr source ++ " not found.",
    resolution := some "Make sure the source path is correct and accessible." }

/-- InvalidSnapPackage (src/craft_parts/sources/errors.py lines 184-195). -/
def InvalidSnapPackage (snap_file : String) : PartsError :=
  { brief := "Snap " ++ pyStrRepr snap_file ++ " does not contain valid data.",
    resolution := some "Ensure the source lists a proper snap file." }

/-- InvalidRpmPackage (src/craft_parts/sources/errors.py lines 198-209). -/
def InvalidRpmPackage (rpm_file : String) : PartsError :=
  { brief := "RPM file " ++ pyStrRepr rpm_file ++ " could not be extracted.",
    resolution := some "Ensure the source lists a valid rpm file." }

/-- PullError (src/craft_parts/sources/errors.py lines 212-229); Python's
falsy test on the resolution substitutes the default for both None and the
empty string. -/
def PullError (command : List String) (exit_code : Int)
    (resolution : Option String) : PartsError :=
  { brief := "Failed to pull source: command " ++ pyListRepr command ++
      " exited with code " ++ toString exit_code ++ ".",
    resolution := some
      (match resolution with
       | some r =>
         if r = "" then "Make sure sources are correctly specified." else r
       | none => "Make sure sources are correctly specified.") }

/-- VCSError (src/craft_parts/sources/errors.py lines 232-239): the brief
is exactly the caller-supplied message. -/
def VCSError (message : String) (resolution : Option String) : PartsError :=
  { brief := message, resolution := resolution }

/-- A string is nonempty whenever its left append factor is. -/
theorem append_ne_empty (a b : String) (ha : a ≠ "") : a ++ b ≠ "" := by
  intro h
  apply ha
  have hd := congrArg String.data h
  rw [String.data_append] at hd
  exact String.ext (List.append_eq_nil.mp hd).1

/-- Exhibiting a decomposition proves substring containment. -/
theorem pyIn_intro (x s : String) (a b : List Char)
    (h : s.data = a ++ x.data ++ b) : pyIn x s = true := by
  unfold pyIn
  rw [decide_eq_true_iff]
  exact ⟨a, b, h.symm⟩

/-- Characters that CPython repr shows verbatim inside single quotes. -/
def plainChars (s : String) : Bool :=
  s.data.all fun c =>
    !(c = '\'' || c = '"' || c = '\\' || c = '\t' || c = '\n' || c = '\r')

theorem flatMap_id_of_forall {l : List Char} {f : Char → List Char}
    (h : ∀ c ∈ l, f c = [c]) : l.flatMap f = l := by
  induction l with
  | nil => rfl
  | cons c rest ih =>
    rw [List.flatMap_cons, h c (by simp), ih fun d hd => h d (by simp [hd])]
    rfl

/-- On strings free of quotes, backslashes and control characters, repr
just wraps the string in single quotes. -/
theorem pyStrRepr_plain (s : String) (h : plainChars s = true) :
    pyStrRepr s = "'" ++ s ++ "'" := by
  unfold plainChars at h
  rw [List.all_eq_true] at h
  have hmem : '\'' ∉ s.data := by
    intro hc
    have := h _ hc
    simp at this
  have hq : s.data.contains '\'' = false := by
    simp [List.contains, hmem]
  have hfm : s.data.flatMap (pyCharEscape '\'') = s.data := by
    apply flatMap_id_of_forall
    intro c hc
    have hc' := h c hc
    simp only [Bool.not_eq_true', Bool.or_eq_false_iff,
      decide_eq_false_iff_not] at hc'
    obtain ⟨⟨⟨⟨⟨h1, h2⟩, h3⟩, h4⟩, h5⟩, h6⟩ := hc'
    simp [pyCharEscape, h1, h3, h4, h5, h6]
  unfold pyStrRepr
  rw [hq]
  simp only [Bool.false_and, Bool.and_eq_true]
  rw [if_neg (by simp)]
  apply String.ext
  rw [hfm]
  simp [String.data_append]

/-- C9 counterexample: VCSError accepts an empty message, and its brief is
then the empty string — not a non-empty summary. -/
theorem claim_c9_counterexample : (VCSError "" none).brief = "" := rfl

/-- C9 (amended): every constructor of the source-error taxonomy except
VCSError yields a non-empty brief for all inputs; VCSError's brief is
exactly the caller-supplied message (hence non-empty whenever the message
is); ChecksumMismatch's brief contains both digests, SourceNotFound's
brief contains the source string (for sources repr shows verbatim) and its
resolution hint is set, as are the hints of the other actionable errors. -/
theorem claim_c9 (source expected obtained name message reason snap rpm
      source_type2 : String)
    (source_type netsource res : Option String)
    (options command : List String) (status_code exit_code : Int)
    (hplain : plainChars source = true) :
    (InvalidSourceType source source_type).brief ≠ ""
    ∧ (InvalidSourceOption source_type2 name).brief ≠ ""
    ∧ (InvalidSourceOptions source_type2 options).brief ≠ ""
    ∧ (IncompatibleSourceOptions source_type2 options).brief ≠ ""
    ∧ (ChecksumMismatch expected obtained).brief ≠ ""
    ∧ (SourceUpdateUnsupported name).brief ≠ ""
    ∧ (NetworkRequestError message netsource).brief ≠ ""
    ∧ (HttpRequestError status_code reason source).brief ≠ ""
    ∧ (SourceNotFound source).brief ≠ ""
    ∧ (InvalidSnapPackage snap).brief ≠ ""
    ∧ (InvalidRpmPackage rpm).brief ≠ ""
    ∧ (PullError command exit_code res).brief ≠ ""
    ∧ (VCSError message res).brief = message
    ∧ pyIn expected (ChecksumMismatch expected obtained).brief = true
    ∧ pyIn obtained (ChecksumMismatch expected obtained).brief = true
    ∧ pyIn source (SourceNotFound source).brief = true
    ∧ (SourceNotFound source).resolution
        = some "Make sure the source path is correct and accessible."
    ∧ (InvalidSourceOption source_type2 name).resolution.isSome = true
    ∧ (NetworkRequestError message netsource).resolution.isSome = true
    ∧ (PullError command exit_code res).resolution.isSome = true := by
  refine ⟨?_, ?_, ?_, ?_, ?_, ?_, ?_, ?_, ?_, ?_, ?_, ?_, rfl, ?_, ?_, ?_,
    rfl, rfl, rfl, rfl⟩
  · repeat apply append_ne_empty
    decide
  · repeat apply append_ne_empty
    decide
  · repeat apply append_ne_empty
    decide
  · repeat apply append_ne_empty
    decide
  · repeat apply append_ne_empty
    decide
  · repeat apply append_ne_empty
    decide
  · repeat apply append_ne_empty
    decide
  · repeat apply append_ne_empty
    decide
  · repeat apply append_ne_empty
    decide
  · repeat apply append_ne_empty
    decide
  · repeat apply append_ne_empty
    decide
  · repeat apply append_ne_empty
    decide
  · apply pyIn_intro _ _ ("Expected digest ").data
      ((", obtained " ++ obtained ++ ".").data)
    simp [ChecksumMismatch, String.data_append]
  · apply pyIn_intro _ _ (("Expected digest " ++ expected ++ ", obtained ").data)
      (".").data
    simp [ChecksumMismatch, String.data_append]
  · rw [show (SourceNotFound source).brief
        = "Failed to pull source: " ++ pyStrRepr source ++ " not found."
      from rfl, pyStrRepr_plain source hplain]
    apply pyIn_intro _ _ (("Failed to pull source: " ++ "'").data)
      (("'" ++ " not found.").data)
    simp [String.data_append]

/-- C9 witness: the amended statement at concrete error inputs. -/
theorem claim_c9_witness :
    plainChars "src/tree" = true
    ∧ pyIn "src/tree" (SourceNotFound "src/tree").brief = true
    ∧ (ChecksumMismatch "abc" "def").brief ≠ "" := by
  have h := claim_c9 "src/tree" "abc" "def" "nm" "msg" "rsn" "sn" "rp" "zip"
    none none none ["o1"] ["cmd"] 404 1 (by decide)
  exact ⟨by decide, h.2.2.2.2.2.2.2.2.2.2.2.2.2.2.2.1, h.2.2.2.2.1⟩
